import Mathlib

/-!
Verification of `src/lib/playground/functions/message-handler/handler.py`.

The handler is embedded shallowly: external collaborators (the Bedrock
streaming model, the Athena query service, the WebSocket sender, the logger)
are modelled as an environment record supplying their observable outputs,
and each handler function becomes a total Lean function from its inputs and
that environment to the list of observable effects it performs plus its
outcome.  Python exceptions are modelled with an explicit outcome type;
Python falsiness of strings/lists/None is modelled by explicit emptiness /
`Option` tests.
-/

set_option autoImplicit false

namespace Handler

/-! ## Python string primitives used by the handler -/

/-- Python `prefix`-test on character lists: `list_pre p s` is
`s.startswith(p)` read on the underlying characters. -/
def list_pre : List Char → List Char → Bool
  | [], _ => true
  | _ :: _, [] => false
  | a :: as, b :: bs => a == b && list_pre as bs

/-- Python `needle in haystack` substring test on character lists. -/
def list_sub : List Char → List Char → Bool
  | needle, [] => needle.isEmpty
  | needle, c :: t => list_pre needle (c :: t) || list_sub needle t

/-- Python `s.startswith(p)`. -/
def py_startswith (p s : String) : Bool :=
  list_pre p.data s.data

/-- Python `needle in haystack` for strings. -/
def py_contains (needle haystack : String) : Bool :=
  list_sub needle.data haystack.data

/-- Python `s.lower()` (ASCII-faithful). -/
def py_lower (s : String) : String :=
  ⟨s.data.map Char.toLower⟩

/-- Python `s.replace(c, "")` for a single character `c`: removes every
occurrence. -/
def py_remove (c : Char) (s : String) : String :=
  ⟨s.data.filter (fun a => a ≠ c)⟩

/-- Python `s.strip()`: drop leading and trailing whitespace. -/
def py_strip (s : String) : String :=
  ⟨((s.data.dropWhile Char.isWhitespace).reverse.dropWhile
      Char.isWhitespace).reverse⟩

/-! ## SQL post-validation (handler.py lines 156-161) -/

/-- `sql_query_response.replace('\n', '').replace('\\', '')`
(handler.py line 156). -/
def clean_sql (s : String) : String :=
  py_remove '\\' (py_remove '\n' s)

/-- `sql_query.lower().startswith(('select', 'insert', 'update', 'delete'))`
(handler.py line 160). -/
def valid_sql (s : String) : Bool :=
  let q := py_lower s
  py_startswith "select" q || py_startswith "insert" q ||
    py_startswith "update" q || py_startswith "delete" q

/-! ## Visualization-intent classification (handler.py lines 201-234) -/

/-- The three-way outcome of the chart/table classification branch. -/
inductive VisualizationIntent
  | Chart
  | Table
  | Unknown
  deriving DecidableEq, Repr

/-- The `if "chart" in intent_response.lower(): ... elif "table" in
intent_response.lower(): ... else: ...` chain of handler.py lines 201-233. -/
def classify_intent (resp : String) : VisualizationIntent :=
  if py_contains "chart" (py_lower resp) then .Chart
  else if py_contains "table" (py_lower resp) then .Table
  else .Unknown

/-! ## Athena query pipeline (handler.py lines 42-100) -/

/-- A result row, kept opaque (its JSON text). -/
abbrev Row := String

/-- One `QueryExecution.Status.State` value together with the
`StateChangeReason` the provider reports alongside it. -/
inductive QueryStatus
  | queued
  | running
  | succeeded
  | failed
  | cancelled
  deriving DecidableEq, Repr

/-- Outcome of the status-polling loop of `get_athena_query_results`
(handler.py lines 59-70): success, a raised exception message, or the
observed poll sequence ran out without reaching a terminal state (the real
loop would still be sleeping and re-polling). -/
inductive PollOutcome
  | succeeded
  | raised (msg : String)
  | exhausted
  deriving DecidableEq, Repr

/-- The polling loop of handler.py lines 59-70, run against the sequence of
(status, StateChangeReason) pairs the provider returns on successive polls. -/
def poll_loop : List (QueryStatus × String) → PollOutcome
  | [] => .exhausted
  | (s, reason) :: rest =>
    match s with
    | .succeeded => .succeeded
    | .failed => .raised ("Query failed: " ++ reason)
    | .cancelled => .raised "Query was cancelled"
    | .queued => poll_loop rest
    | .running => poll_loop rest

/-- One page returned by `get_query_results`: its `ResultSet.Rows` and its
optional `NextToken`. -/
structure ResultPage where
  rows : List Row
  nextToken : Option String
  deriving DecidableEq, Repr

/-- The pagination loop of handler.py lines 73-87, run against the sequence
of pages the provider returns on successive fetches: extend with the page's
rows, read its `NextToken`, and stop when that token is absent or falsy
(the empty string). -/
def fetch_pages : List ResultPage → List Row
  | [] => []
  | p :: rest =>
    p.rows ++ (match p.nextToken with
      | none => []
      | some t => if t = "" then [] else fetch_pages rest)

/-- Number of `get_query_results` calls the pagination loop performs on the
same page sequence. -/
def fetch_count : List ResultPage → Nat
  | [] => 0
  | p :: rest =>
    1 + (match p.nextToken with
      | none => 0
      | some t => if t = "" then 0 else fetch_count rest)

/-- A well-formed provider page chain: every page before the last carries a
non-falsy continuation token and the last carries none. -/
inductive ChainWF : List ResultPage → Prop
  | last (rows : List Row) : ChainWF [⟨rows, none⟩]
  | cons (rows : List Row) (t : String) (rest : List ResultPage) :
      t ≠ "" → ChainWF rest → ChainWF (⟨rows, some t⟩ :: rest)

/-- The Athena-side environment: what `start_query_execution` returns (or the
exception it raises), the successive poll observations, and the successive
result pages. -/
structure AthenaEnv where
  startQuery : Except String String
  polls : List (QueryStatus × String)
  pages : List ResultPage
  deriving Repr

/-- Observable effects of the handler: sender channel operations, model
invocations, the Athena submission, and log lines. -/
inductive Effect
  | sendHeartbeat
  | sendText (t : String)
  | sendError (msg : String)
  | sendLoop (payload : String)
  | modelCall
  | athenaStart
  | logLine (s : String)
  deriving DecidableEq, Repr

/-- Outcome of `execute_athena_query`: a propagated exception, a Python
return value (`None` or the row list), or divergence of the inner polling
loop. -/
inductive ExecOutcome
  | raised (msg : String)
  | returned (r : Option (List Row))
  | diverges
  deriving DecidableEq, Repr

/-- `execute_athena_query` (handler.py lines 89-100): raises
`ValueError("Query is required")` on a falsy query BEFORE entering its
`try`; inside the `try` it submits (`run_athena_query`, line 95), polls and
paginates (`get_athena_query_results`, line 96) and returns the rows; any
exception raised inside the `try` is caught, printed, and `None` is
returned. -/
def execute_athena_query (query _database _output_bucket : String)
    (env : AthenaEnv) : List Effect × ExecOutcome :=
  if query = "" then ([], .raised "Query is required")
  else
    match env.startQuery with
    | .error e =>
      ([.athenaStart, .logLine ("Error executing query: " ++ e)],
        .returned none)
    | .ok _qid =>
      match poll_loop env.polls with
      | .raised m =>
        ([.athenaStart, .logLine ("Error executing query: " ++ m)],
          .returned none)
      | .exhausted => ([.athenaStart], .diverges)
      | .succeeded =>
        ([.athenaStart], .returned (some (fetch_pages env.pages)))

/-! ## Streaming model call (handler.py lines 260-304) -/

/-- One chunk of the Bedrock `converse_stream` response.  Modelled from the
spec: `ConverseToolExecutor.process_chunk` (imported from the `tools`
module, which is not part of the handler source) returns the decoded text
fragment of a `TextDelta` chunk and nothing for tool-use chunks, whose
requests it only accumulates for `get_assistant_messages`; `text` is that
fragment (if any) and `toolUse` marks a chunk carrying a tool-use request. -/
structure StreamChunk where
  text : Option String
  toolUse : Bool
  deriving DecidableEq, Repr

/-- The sender effects of the chunk-drain loop of handler.py lines 287-296:
`send_text` exactly for the chunks whose processed text is truthy. -/
def chunk_effects (chunks : List StreamChunk) : List Effect :=
  chunks.filterMap fun c =>
    match c.text with
    | some t => if t = "" then none else some (.sendText t)
    | none => none

/-- The accumulated `response_text` of handler.py lines 286-294. -/
def chunk_text (chunks : List StreamChunk) : String :=
  String.join (chunks.filterMap fun c =>
    match c.text with
    | some t => if t = "" then none else some t
    | none => none)

/-- `converse_make_request_stream` (handler.py lines 260-304): one
`bedrock_client.converse_stream` invocation, one pass over its chunks
sending each truthy text fragment, and the stripped accumulated text as
return value.  The assistant messages collected by the executor are
appended to the caller's message list but the model is never re-entered. -/
def converse_make_request_stream (chunks : List StreamChunk) :
    List Effect × String :=
  (Effect.modelCall :: chunk_effects chunks, py_strip (chunk_text chunks))

/-! ## Turn controller `handle_message` (handler.py lines 102-258) -/

/-- The environment for one CONVERSE turn: the chunk streams Bedrock
returns for each of the three model calls, and the Athena environment. -/
structure Env where
  sqlChunks : List StreamChunk
  intentChunks : List StreamChunk
  genChunks : List StreamChunk
  athena : AthenaEnv

/-- The inbound event body: `body.get("session_id")`,
`body.get("event_type")`, `body.get("message")`. -/
structure Body where
  session_id : Option String
  event_type : Option String
  message : Option String

/-- How the code inside `handle_message`'s `try` block ends: normally, by
raising an exception with the given `str(e)`, or by diverging inside the
unbounded Athena polling loop. -/
inductive TurnEnd
  | normal
  | raised (msg : String)
  | diverged
  deriving DecidableEq, Repr

/-- The `str(e)` of the `UnboundLocalError` Python raises when a local
variable is read before any assignment to it. -/
def nameErrMsg (v : String) : String :=
  "cannot access local variable " ++ v ++
    " where it is not associated with a value"

/-- `json.dumps(results, indent=2)` of handler.py line 168, modelled as a
bracketed join of the (opaque) row texts; always a non-empty string, as
`json.dumps` of a list always is. -/
def json_dumps (rows : List Row) : String :=
  "[" ++ String.intercalate ", " rows ++ "]"

/-- The CONVERSE branch of `handle_message` (handler.py lines 116-251):
SQL-generation model call; truthiness test of the response (falsy goes to
`send_error("Failed to execute query")`, line 251); cleaning and validation
of the SQL (raise on failure, line 161); `execute_athena_query`;
conditional binding of `query_results_str` (line 167-168, bound only for a
truthy result list); the classification model call (line 187); the
`if intent_response and query_results_str:` guard (line 199, short-circuit:
a falsy `intent_response` skips the block, a truthy one reads
`query_results_str`, raising `UnboundLocalError` when it was never bound);
the chart/table/else chain (lines 201-234, the else sending
"Unable to determine visualization type."); the `if generative_messages:`
read (line 236, raising `UnboundLocalError` when no branch assigned it);
the artifact-generation model call; and `send_loop` (line 249). -/
def converse_turn (env : Env) : List Effect × TurnEnd :=
  let sqlCall := converse_make_request_stream env.sqlChunks
  let eff1 := sqlCall.1
  let sqlResp := sqlCall.2
  if sqlResp = "" then
    (eff1 ++ [.sendError "Failed to execute query"], .normal)
  else
    let sql_query := clean_sql sqlResp
    if valid_sql sql_query then
      let ex := execute_athena_query sql_query "bm-db-prototype"
        "bloomfleet-ai-prototype-output" env.athena
      let eff2 := ex.1
      match ex.2 with
      | .raised m => (eff1 ++ eff2, .raised m)
      | .diverges => (eff1 ++ eff2, .diverged)
      | .returned results =>
        let query_results_str : Option String :=
          match results with
          | some rows => if rows = [] then none else some (json_dumps rows)
          | none => none
        let intentCall := converse_make_request_stream env.intentChunks
        let effA := eff1 ++ eff2 ++ intentCall.1
        let intentResp := intentCall.2
        if intentResp = "" then
          (effA, .raised (nameErrMsg "generative_messages"))
        else
          match query_results_str with
          | none => (effA, .raised (nameErrMsg "query_results_str"))
          | some s =>
            if s = "" then
              (effA, .raised (nameErrMsg "generative_messages"))
            else
              match classify_intent intentResp with
              | .Unknown =>
                (effA ++ [.sendError "Unable to determine visualization type."],
                  .raised (nameErrMsg "generative_messages"))
              | _ =>
                let genCall := converse_make_request_stream env.genChunks
                (effA ++ genCall.1 ++ [.sendLoop genCall.2], .normal)
    else
      (eff1, .raised "Generated query is not a valid SQL command.")

/-- Python `f"{event_type}"` on the optional event type. -/
def pyStr : Option String → String
  | none => "None"
  | some s => s

/-- The body of `handle_message`'s `try` block (handler.py lines 107-253):
session-id presence/truthiness check, then dispatch on the event type. -/
def dispatch (body : Body) (env : Env) : List Effect × TurnEnd :=
  match body.session_id with
  | none => ([], .raised "Session ID is required")
  | some sid =>
    if sid = "" then ([], .raised "Session ID is required")
    else if body.event_type = some "HEARTBEAT" then
      ([.sendHeartbeat], .normal)
    else if body.event_type = some "CONVERSE" then
      converse_turn env
    else
      ([], .raised ("Unknown event type: " ++ pyStr body.event_type))

/-- The transport-level return value of `handle_message`. -/
structure Envelope where
  statusCode : Nat
  ok : Bool
  deriving DecidableEq, Repr

/-- `{"statusCode": 200, "body": json.dumps({"ok": True})}`
(handler.py line 258). -/
def envelope_ok : Envelope := ⟨200, true⟩

/-- What one `handle_message` invocation is observed to do: its effects and
its return value (`none` exactly when the turn diverged inside the polling
loop and the function never returns). -/
structure TurnResult where
  effects : List Effect
  ret : Option Envelope
  deriving DecidableEq, Repr

/-- `handle_message` (handler.py lines 102-258): run the `try` body; any
exception is caught by the `except` (line 254) and reported through
`sender.send_error(str(e))`; the success envelope is returned on every
completed path. -/
def handle_message (body : Body) (env : Env) : TurnResult :=
  match dispatch body env with
  | (eff, .normal) => ⟨eff, some envelope_ok⟩
  | (eff, .raised m) => ⟨eff ++ [.sendError m], some envelope_ok⟩
  | (eff, .diverged) => ⟨eff, none⟩

/-! ## Effect observations -/

/-- Is this effect a model invocation? -/
def isModelCall : Effect → Bool
  | .modelCall => true
  | _ => false

/-- Is this effect a sender-channel error message? -/
def isErrorSend : Effect → Bool
  | .sendError _ => true
  | _ => false

/-- Is this effect a `send_loop` delivery? -/
def isLoopSend : Effect → Bool
  | .sendLoop _ => true
  | _ => false

/-- Number of model invocations in an effect list. -/
def modelCalls (eff : List Effect) : Nat := eff.countP isModelCall

/-- The user-visible error messages of an effect list, in order. -/
def errorMsgs (eff : List Effect) : List String :=
  eff.filterMap fun e =>
    match e with
    | .sendError m => some m
    | _ => none

/-- The stripped text the SQL-generation model call returns in `env`. -/
def sqlResp (env : Env) : String :=
  (converse_make_request_stream env.sqlChunks).2

/-- The stripped text the classification model call returns in `env`. -/
def intentResp (env : Env) : String :=
  (converse_make_request_stream env.intentChunks).2

/-! ## Concrete sample inputs used by witnesses and counterexamples -/

/-- A well-formed CONVERSE body. -/
def sampleBody : Body := ⟨some "S", some "CONVERSE", some "show all sales"⟩

/-- An environment whose SQL call yields `select 1`, whose query succeeds
with one row, and whose classification response contains neither "chart"
nor "table". -/
def envUnknownIntent : Env :=
  ⟨[⟨some "select 1", false⟩], [⟨some "neither", false⟩], [],
    ⟨.ok "q", [(.succeeded, "")], [⟨["r1"], none⟩]⟩⟩

/-- An environment whose SQL-generation call yields no text at all. -/
def envEmptySql : Env := ⟨[], [], [], ⟨.ok "q", [], []⟩⟩

/-- An environment whose SQL call yields `select 1` but whose query
submission raises, so `execute_athena_query` returns `None`. -/
def envNoResults : Env :=
  ⟨[⟨some "select 1", false⟩], [], [], ⟨.error "boom", [], []⟩⟩

/-- An environment for a fully successful chart turn. -/
def envChartTurn : Env :=
  ⟨[⟨some "select 1", false⟩], [⟨some "a chart please", false⟩],
    [⟨some "{}", false⟩],
    ⟨.ok "q", [(.queued, ""), (.succeeded, "")], [⟨["r1"], none⟩]⟩⟩

/-- A stream in which every chunk carries a tool-use request and no text. -/
def allToolChunks : List StreamChunk := List.replicate 4 ⟨none, true⟩

/-- A two-page provider chain. -/
def pagesW : List ResultPage := [⟨["h"], some "tok"⟩, ⟨["r1", "r2"], none⟩]

/-! ## Helper lemmas -/

/-- Every effect of the chunk-drain loop is a `sendText`. -/
theorem chunk_effects_sendText (cs : List StreamChunk) :
    ∀ e ∈ chunk_effects cs, ∃ t, e = Effect.sendText t := by
  intro e he
  unfold chunk_effects at he
  rw [List.mem_filterMap] at he
  obtain ⟨c, -, hc⟩ := he
  cases hct : c.text with
  | none => rw [hct] at hc; simp at hc
  | some t =>
    rw [hct] at hc
    dsimp only at hc
    by_cases ht : t = ""
    · rw [if_pos ht] at hc; simp at hc
    · rw [if_neg ht] at hc
      exact ⟨t, (Option.some_injective _ hc).symm⟩

/-- A single model invocation per `converse_make_request_stream` call. -/
theorem modelCalls_converse (cs : List StreamChunk) :
    modelCalls (converse_make_request_stream cs).1 = 1 := by
  unfold modelCalls converse_make_request_stream
  rw [List.countP_cons_of_pos _ _ (by rfl)]
  have h0 : (chunk_effects cs).countP isModelCall = 0 := by
    rw [List.countP_eq_zero]
    intro e he
    obtain ⟨t, rfl⟩ := chunk_effects_sendText cs e he
    simp [isModelCall]
  omega

/-- `converse_make_request_stream` sends no error. -/
theorem errorMsgs_converse (cs : List StreamChunk) :
    errorMsgs (converse_make_request_stream cs).1 = [] := by
  unfold errorMsgs converse_make_request_stream
  rw [List.filterMap_cons]
  dsimp only
  rw [List.filterMap_eq_nil_iff]
  intro e he
  obtain ⟨t, rfl⟩ := chunk_effects_sendText cs e he
  rfl

/-- `converse_make_request_stream` performs no `send_loop`. -/
theorem loopSends_converse (cs : List StreamChunk) :
    (converse_make_request_stream cs).1.countP isLoopSend = 0 := by
  unfold converse_make_request_stream
  rw [List.countP_cons_of_neg _ _ (by simp [isLoopSend]), List.countP_eq_zero]
  intro e he
  obtain ⟨t, rfl⟩ := chunk_effects_sendText cs e he
  simp [isLoopSend]

/-- `converse_make_request_stream` does not submit an Athena query. -/
theorem athenaStart_not_converse (cs : List StreamChunk) :
    Effect.athenaStart ∉ (converse_make_request_stream cs).1 := by
  intro h
  unfold converse_make_request_stream at h
  rcases List.mem_cons.mp h with h | h
  · cases h
  · obtain ⟨t, ht⟩ := chunk_effects_sendText cs _ h
    cases ht

/-- Every effect of `execute_athena_query` is the submission or a log line. -/
theorem execute_effects_shape (q db ob : String) (env : AthenaEnv) :
    ∀ e ∈ (execute_athena_query q db ob env).1,
      e = Effect.athenaStart ∨ ∃ s, e = Effect.logLine s := by
  intro e he
  unfold execute_athena_query at he
  by_cases hq : q = ""
  · rw [if_pos hq] at he; cases he
  · rw [if_neg hq] at he
    cases hs : env.startQuery with
    | error m =>
      rw [hs] at he
      rcases List.mem_cons.mp he with h | h
      · exact .inl h
      · rcases List.mem_cons.mp h with h | h
        · exact .inr ⟨_, h⟩
        · cases h
    | ok qid =>
      rw [hs] at he
      cases hp : poll_loop env.polls with
      | raised m =>
        rw [hp] at he
        rcases List.mem_cons.mp he with h | h
        · exact .inl h
        · rcases List.mem_cons.mp h with h | h
          · exact .inr ⟨_, h⟩
          · cases h
      | exhausted =>
        rw [hp] at he
        rcases List.mem_cons.mp he with h | h
        · exact .inl h
        · cases h
      | succeeded =>
        rw [hp] at he
        rcases List.mem_cons.mp he with h | h
        · exact .inl h
        · cases h

/-- `execute_athena_query` makes no model call. -/
theorem modelCalls_execute (q db ob : String) (env : AthenaEnv) :
    modelCalls (execute_athena_query q db ob env).1 = 0 := by
  unfold modelCalls
  rw [List.countP_eq_zero]
  intro e he
  rcases execute_effects_shape q db ob env e he with rfl | ⟨s, rfl⟩ <;>
    simp [isModelCall]

/-- `execute_athena_query` sends no error over the sender channel. -/
theorem errorMsgs_execute (q db ob : String) (env : AthenaEnv) :
    errorMsgs (execute_athena_query q db ob env).1 = [] := by
  unfold errorMsgs
  rw [List.filterMap_eq_nil_iff]
  intro e he
  rcases execute_effects_shape q db ob env e he with rfl | ⟨s, rfl⟩ <;> rfl

/-- `execute_athena_query` performs no `send_loop`. -/
theorem loopSends_execute (q db ob : String) (env : AthenaEnv) :
    (execute_athena_query q db ob env).1.countP isLoopSend = 0 := by
  rw [List.countP_eq_zero]
  intro e he
  rcases execute_effects_shape q db ob env e he with rfl | ⟨s, rfl⟩ <;>
    simp [isLoopSend]

/-- A non-empty query is always submitted. -/
theorem athenaStart_mem_execute (q db ob : String) (env : AthenaEnv)
    (hq : q ≠ "") : Effect.athenaStart ∈ (execute_athena_query q db ob env).1 := by
  unfold execute_athena_query
  rw [if_neg hq]
  cases env.startQuery with
  | error m => exact List.mem_cons_self _ _
  | ok qid =>
    cases poll_loop env.polls <;> exact List.mem_cons_self _ _

/-- A string passing the SQL validation is non-empty. -/
theorem valid_sql_ne_empty (s : String) (h : valid_sql s = true) : s ≠ "" := by
  intro hs
  subst hs
  exact absurd h (by decide)

/-- `json.dumps` of a row list is never the empty string. -/
theorem json_dumps_ne_empty (rows : List Row) : json_dumps rows ≠ "" := by
  intro h
  have := congrArg String.data h
  simp [json_dumps] at this

/-- Model-call count distributes over effect concatenation. -/
theorem modelCalls_append (a b : List Effect) :
    modelCalls (a ++ b) = modelCalls a + modelCalls b :=
  List.countP_append ..

/-- Error messages distribute over effect concatenation. -/
theorem errorMsgs_append (a b : List Effect) :
    errorMsgs (a ++ b) = errorMsgs a ++ errorMsgs b :=
  List.filterMap_append ..

/-- `send_loop` count distributes over effect concatenation. -/
theorem loopSends_append (a b : List Effect) :
    (a ++ b).countP isLoopSend = a.countP isLoopSend + b.countP isLoopSend :=
  List.countP_append ..

/-- Reaching the `CONVERSE` branch: a present, truthy session id and the
`CONVERSE` event type make `dispatch` run `converse_turn`. -/
theorem dispatch_converse (body : Body) (env : Env) (sid : String)
    (hs : body.session_id = some sid) (hsid : ¬ sid = "")
    (hev : body.event_type = some "CONVERSE") :
    dispatch body env = converse_turn env := by
  unfold dispatch
  rw [hs]
  dsimp only
  rw [if_neg hsid, hev, if_neg (by decide), if_pos rfl]

/-- After a truthy SQL response failing validation, the turn raises the
validation error having performed only the first model call. -/
theorem converse_turn_invalid (env : Env)
    (h1 : ¬ sqlResp env = "")
    (h2 : valid_sql (clean_sql (sqlResp env)) = false) :
    converse_turn env =
      ((converse_make_request_stream env.sqlChunks).1,
        .raised "Generated query is not a valid SQL command.") := by
  simp only [sqlResp] at h1 h2
  simp only [converse_turn]
  rw [if_neg h1, if_neg (by simp [h2])]

/-- After a valid SQL response, the Athena submission is attempted. -/
theorem athenaStart_converse_turn (env : Env)
    (h1 : ¬ sqlResp env = "")
    (h2 : valid_sql (clean_sql (sqlResp env)) = true) :
    Effect.athenaStart ∈ (converse_turn env).1 := by
  have hq : clean_sql (sqlResp env) ≠ "" := valid_sql_ne_empty _ h2
  have hmem := athenaStart_mem_execute (clean_sql (sqlResp env))
    "bm-db-prototype" "bloomfleet-ai-prototype-output" env.athena hq
  simp only [sqlResp] at h1 h2 hmem
  simp only [converse_turn]
  rw [if_neg h1, if_pos h2]
  cases hex : (execute_athena_query
      (clean_sql (converse_make_request_stream env.sqlChunks).2)
      "bm-db-prototype" "bloomfleet-ai-prototype-output" env.athena).2 with
  | raised m => simp [List.mem_append, hmem]
  | diverges => simp [List.mem_append, hmem]
  | returned r =>
    dsimp only
    split
    · simp [List.mem_append, hmem]
    · split
      · simp [List.mem_append, hmem]
      · split
        · simp [List.mem_append, hmem]
        · split <;> simp [List.mem_append, hmem]

/-- When a passing query returns `None` or no rows, the classification call
still happens and the turn then raises an unbound-local error. -/
theorem converse_turn_noresults (env : Env) (r : Option (List Row))
    (h1 : ¬ sqlResp env = "")
    (h2 : valid_sql (clean_sql (sqlResp env)) = true)
    (hex : (execute_athena_query (clean_sql (sqlResp env)) "bm-db-prototype"
      "bloomfleet-ai-prototype-output" env.athena).2 = .returned r)
    (hre : r = none ∨ r = some []) :
    converse_turn env =
      ((converse_make_request_stream env.sqlChunks).1 ++
        (execute_athena_query (clean_sql (sqlResp env)) "bm-db-prototype"
          "bloomfleet-ai-prototype-output" env.athena).1 ++
        (converse_make_request_stream env.intentChunks).1,
       .raised (nameErrMsg (if intentResp env = "" then "generative_messages"
         else "query_results_str"))) := by
  simp only [sqlResp, intentResp] at h1 h2 hex ⊢
  simp only [converse_turn]
  rw [if_neg h1, if_pos h2, hex]
  rcases hre with rfl | rfl <;>
    · dsimp only
      by_cases hI : (converse_make_request_stream env.intentChunks).2 = "" <;>
        simp [hI]

/-- A lone error send is no model call. -/
theorem modelCalls_errorSingleton (m : String) :
    modelCalls [Effect.sendError m] = 0 := rfl

/-- A lone `send_loop` is no model call. -/
theorem modelCalls_loopSingleton (p : String) :
    modelCalls [Effect.sendLoop p] = 0 := rfl

/-- A lone error send carries exactly its message. -/
theorem errorMsgs_errorSingleton (m : String) :
    errorMsgs [Effect.sendError m] = [m] := rfl

/-- `converse_turn` makes at most three model calls. -/
theorem converse_turn_modelCalls_le (env : Env) :
    modelCalls (converse_turn env).1 ≤ 3 := by
  simp only [converse_turn]
  by_cases h1 : (converse_make_request_stream env.sqlChunks).2 = ""
  · rw [if_pos h1]
    simp [modelCalls_append, modelCalls_converse, modelCalls_errorSingleton]
  · rw [if_neg h1]
    by_cases h2 : valid_sql
        (clean_sql (converse_make_request_stream env.sqlChunks).2) = true
    · rw [if_pos h2]
      cases hex : (execute_athena_query
          (clean_sql (converse_make_request_stream env.sqlChunks).2)
          "bm-db-prototype" "bloomfleet-ai-prototype-output" env.athena).2 with
      | raised m =>
        simp [modelCalls_append, modelCalls_converse, modelCalls_execute]
      | diverges =>
        simp [modelCalls_append, modelCalls_converse, modelCalls_execute]
      | returned results =>
        dsimp only
        by_cases hI : (converse_make_request_stream env.intentChunks).2 = ""
        · rw [if_pos hI]
          simp [modelCalls_append, modelCalls_converse, modelCalls_execute]
        · rw [if_neg hI]
          cases results with
          | none =>
            simp [modelCalls_append, modelCalls_converse, modelCalls_execute]
          | some rows =>
            dsimp only
            by_cases hrows : rows = []
            · rw [if_pos hrows]
              simp [modelCalls_append, modelCalls_converse, modelCalls_execute]
            · rw [if_neg hrows]
              dsimp only
              rw [if_neg (json_dumps_ne_empty rows)]
              cases classify_intent
                  (converse_make_request_stream env.intentChunks).2 <;>
                simp [modelCalls_append, modelCalls_converse,
                  modelCalls_execute, modelCalls_errorSingleton,
                  modelCalls_loopSingleton]
    · rw [if_neg h2]
      simp [modelCalls_converse]

/-- The whole `try` body makes at most three model calls. -/
theorem dispatch_modelCalls_le (body : Body) (env : Env) :
    modelCalls (dispatch body env).1 ≤ 3 := by
  unfold dispatch
  repeat' split
  all_goals
    first
    | exact converse_turn_modelCalls_le env
    | simp [modelCalls, List.countP_cons, List.countP_nil, isModelCall]

/-- `handle_message`'s effects extend the `try` body's effects. -/
theorem handle_message_effects (body : Body) (env : Env) :
    ∃ tail, (handle_message body env).effects = (dispatch body env).1 ++ tail := by
  unfold handle_message
  rcases hd : dispatch body env with ⟨eff, te⟩
  cases te
  · exact ⟨[], by simp⟩
  · exact ⟨_, rfl⟩
  · exact ⟨[], by simp⟩

/-! ## Claim theorems -/

/-- C1 evaluation at the failing input: with non-empty query results and a
classification response containing neither "chart" nor "table", the turn
sends TWO user-visible error messages — the intended
"Unable to determine visualization type." followed by the
`UnboundLocalError` text from reading the never-assigned
`generative_messages` at line 236 — while making no third model call and
never reaching `send_loop`. -/
theorem c1_unknown_intent_two_errors :
    errorMsgs (handle_message sampleBody envUnknownIntent).effects =
      ["Unable to determine visualization type.",
        nameErrMsg "generative_messages"] ∧
    modelCalls (handle_message sampleBody envUnknownIntent).effects = 2 ∧
    (handle_message sampleBody envUnknownIntent).effects.countP isLoopSend
      = 0 ∧
    (handle_message sampleBody envUnknownIntent).ret = some envelope_ok := by
  decide

/-- C2 counterexample: an empty query makes `execute_athena_query` raise
`ValueError("Query is required")` (the check precedes the `try` block), so
the exception propagates to the caller instead of being logged and turned
into a `None` return. -/
theorem c2_empty_query_raises :
    (execute_athena_query "" "db" "out" ⟨Except.ok "q", [], []⟩).2 =
      ExecOutcome.raised "Query is required" ∧
    ¬ (execute_athena_query "" "db" "out" ⟨Except.ok "q", [], []⟩).2 =
      ExecOutcome.returned none := by
  decide

/-- C2 amended: for every NON-EMPTY query, `execute_athena_query` never
propagates an exception: a submission failure or a failed/cancelled job is
logged and `None` is returned, and a succeeded job returns the fetched
rows; only the empty query raises. -/
theorem c2_nonempty_failures_return_none (q db ob : String)
    (env : AthenaEnv) (hq : ¬ q = "") :
    (∀ e, env.startQuery = .error e →
      execute_athena_query q db ob env =
        ([.athenaStart, .logLine ("Error executing query: " ++ e)],
          .returned none)) ∧
    (∀ qid m, env.startQuery = .ok qid → poll_loop env.polls = .raised m →
      execute_athena_query q db ob env =
        ([.athenaStart, .logLine ("Error executing query: " ++ m)],
          .returned none)) ∧
    (∀ qid, env.startQuery = .ok qid → poll_loop env.polls = .succeeded →
      execute_athena_query q db ob env =
        ([.athenaStart], .returned (some (fetch_pages env.pages)))) ∧
    (∀ m, ¬ (execute_athena_query q db ob env).2 = ExecOutcome.raised m) := by
  refine ⟨?_, ?_, ?_, ?_⟩
  · intro e he
    unfold execute_athena_query
    rw [if_neg hq, he]
  · intro qid m hok hp
    unfold execute_athena_query
    rw [if_neg hq, hok, hp]
  · intro qid hok hp
    unfold execute_athena_query
    rw [if_neg hq, hok, hp]
  · intro m
    unfold execute_athena_query
    rw [if_neg hq]
    cases env.startQuery with
    | error e => simp
    | ok qid => cases poll_loop env.polls <;> simp

/-- C2 witness: a concrete non-empty query whose submission fails is logged
and yields a `None` return. -/
theorem c2_nonempty_failures_return_none_witness :
    execute_athena_query "select 1" "db" "out"
        ⟨Except.error "boom", [], []⟩ =
      ([.athenaStart, .logLine ("Error executing query: " ++ "boom")],
        .returned none) :=
  (c2_nonempty_failures_return_none "select 1" "db" "out"
    ⟨Except.error "boom", [], []⟩ (by decide)).1 "boom" rfl

/-- C3 counterexample: on a stream in which every chunk carries a tool-use
request, `converse_make_request_stream` still performs exactly one model
call, reports no error, and simply returns — there is no round ceiling, no
ceiling-exceeded error, and no re-entry into the model. -/
theorem c3_all_tool_stream_no_error :
    converse_make_request_stream allToolChunks = ([Effect.modelCall], "") ∧
    modelCalls (converse_make_request_stream allToolChunks).1 = 1 ∧
    errorMsgs (converse_make_request_stream allToolChunks).1 = [] := by
  decide

/-- C3 amended: the handler has no tool-execution re-entry loop at all:
every `converse_make_request_stream` invocation makes exactly one model
call and sends no error regardless of how many tool requests the stream
carries, and a whole `handle_message` turn makes at most three model calls;
termination is structural (one pass over a finite chunk list), so no round
ceiling and no ceiling-exceeded error exist. -/
theorem c3_one_call_per_invocation_three_per_turn :
    (∀ chunks : List StreamChunk,
      modelCalls (converse_make_request_stream chunks).1 = 1 ∧
      errorMsgs (converse_make_request_stream chunks).1 = []) ∧
    (∀ (body : Body) (env : Env),
      modelCalls (handle_message body env).effects ≤ 3) := by
  constructor
  · exact fun cs => ⟨modelCalls_converse cs, errorMsgs_converse cs⟩
  · intro body env
    have hle := dispatch_modelCalls_le body env
    unfold handle_message
    rcases hd : dispatch body env with ⟨eff, te⟩
    rw [hd] at hle
    cases te
    · simpa using hle
    · simp only [modelCalls_append, modelCalls_errorSingleton]
      simpa using hle
    · simpa using hle

/-- C4: for a well-formed chain of K provider pages the pagination loop
returns exactly the concatenation of the pages in provider order (no row
dropped or duplicated) and performs exactly K fetches (each continuation
token used at most once), stopping exactly at the page with no token. -/
theorem c4_pagination_exact (pages : List ResultPage) (h : ChainWF pages) :
    fetch_pages pages = (pages.map ResultPage.rows).flatten ∧
    fetch_count pages = pages.length := by
  induction h with
  | last rows => simp [fetch_pages, fetch_count]
  | cons rows t rest ht hwf ih =>
    refine ⟨?_, ?_⟩
    · simp [fetch_pages, ht, ih.1]
    · simp [fetch_count, ht, ih.2]
      omega

/-- C4 witness: a concrete two-page chain concatenates in order with two
fetches. -/
theorem c4_pagination_exact_witness :
    fetch_pages pagesW = (pagesW.map ResultPage.rows).flatten ∧
    fetch_count pagesW = pagesW.length :=
  c4_pagination_exact pagesW
    (ChainWF.cons _ _ _ (by decide) (ChainWF.last _))

/-- C5 counterexample: a cancelled job raises the fixed message
"Query was cancelled"; the provider's stated reason ("user abort") is not
carried in the error, contrary to the claim. -/
theorem c5_cancelled_drops_reason :
    poll_loop [(QueryStatus.cancelled, "user abort")] =
      PollOutcome.raised "Query was cancelled" ∧
    py_contains "user abort" "Query was cancelled" = false := by
  decide

/-- C5 amended: the polling loop proceeds only on SUCCEEDED, keeps polling
on QUEUED/RUNNING with no maximum wait (any finite all-QUEUED observation
leaves it still waiting), raises "Query failed: reason" carrying the
provider's reason on FAILED, and raises the fixed reason-free
"Query was cancelled" on CANCELLED. -/
theorem c5_poll_transitions :
    poll_loop [] = PollOutcome.exhausted ∧
    (∀ (rest : List (QueryStatus × String)) (r : String),
      poll_loop ((QueryStatus.succeeded, r) :: rest) =
        PollOutcome.succeeded) ∧
    (∀ (rest : List (QueryStatus × String)) (r : String),
      poll_loop ((QueryStatus.queued, r) :: rest) = poll_loop rest) ∧
    (∀ (rest : List (QueryStatus × String)) (r : String),
      poll_loop ((QueryStatus.running, r) :: rest) = poll_loop rest) ∧
    (∀ (rest : List (QueryStatus × String)) (r : String),
      poll_loop ((QueryStatus.failed, r) :: rest) =
        PollOutcome.raised ("Query failed: " ++ r)) ∧
    (∀ (rest : List (QueryStatus × String)) (r : String),
      poll_loop ((QueryStatus.cancelled, r) :: rest) =
        PollOutcome.raised "Query was cancelled") ∧
    (∀ (n : Nat) (r : String),
      poll_loop (List.replicate n (QueryStatus.queued, r)) =
        PollOutcome.exhausted) := by
  refine ⟨rfl, fun _ _ => rfl, fun _ _ => rfl, fun _ _ => rfl,
    fun _ _ => rfl, fun _ _ => rfl, ?_⟩
  intro n r
  induction n with
  | zero => rfl
  | succ k ih => simpa [List.replicate_succ, poll_loop] using ih

/-- C6 counterexample: an empty SQL-generation response fails validation
(it starts with none of the four verbs) yet the turn does NOT fail with the
validation error: it ends normally after sending
"Failed to execute query". -/
theorem c6_empty_response_other_error :
    valid_sql (clean_sql (sqlResp envEmptySql)) = false ∧
    handle_message sampleBody envEmptySql =
      ⟨[Effect.modelCall, Effect.sendError "Failed to execute query"],
        some envelope_ok⟩ ∧
    (dispatch sampleBody envEmptySql).2 = TurnEnd.normal := by
  decide

/-- C6 amended: for every NON-EMPTY generated-SQL response in a CONVERSE
turn, the query is submitted exactly when the response — newlines and
backslashes removed — case-insensitively starts with
select/insert/update/delete; otherwise the turn fails with the validation
error as its only user-visible error.  The four claimed examples validate
as stated.  An empty response instead ends with "Failed to execute query".
-/
theorem c6_sql_validation_gate (body : Body) (env : Env) (sid : String)
    (hs : body.session_id = some sid) (hsid : ¬ sid = "")
    (hev : body.event_type = some "CONVERSE")
    (hr : ¬ sqlResp env = "") :
    (Effect.athenaStart ∈ (handle_message body env).effects ↔
      valid_sql (clean_sql (sqlResp env)) = true) ∧
    (valid_sql (clean_sql (sqlResp env)) = false →
      errorMsgs (handle_message body env).effects =
        ["Generated query is not a valid SQL command."]) ∧
    (valid_sql (clean_sql "SELECT * FROM sales;") = true ∧
      valid_sql (clean_sql "select 1") = true ∧
      valid_sql (clean_sql "DROP TABLE sales") = false ∧
      valid_sql (clean_sql "WITH x AS (...) SELECT 1") = false) := by
  have hd := dispatch_converse body env sid hs hsid hev
  refine ⟨?_, ?_, by decide⟩
  · cases hv : valid_sql (clean_sql (sqlResp env)) with
    | false =>
      have heq : handle_message body env =
          ⟨(converse_make_request_stream env.sqlChunks).1 ++
            [Effect.sendError "Generated query is not a valid SQL command."],
            some envelope_ok⟩ := by
        unfold handle_message
        rw [hd, converse_turn_invalid env hr hv]
      rw [heq]
      simp only [List.mem_append]
      constructor
      · rintro (hmem | hmem)
        · exact absurd hmem (athenaStart_not_converse _)
        · simp at hmem
      · intro hc
        exact absurd hc (by decide)
    | true =>
      have hmem := athenaStart_converse_turn env hr hv
      constructor
      · intro _
        rfl
      · intro _
        obtain ⟨tail, htail⟩ := handle_message_effects body env
        rw [htail, hd]
        exact List.mem_append_left _ hmem
  · intro hv
    have heq : handle_message body env =
        ⟨(converse_make_request_stream env.sqlChunks).1 ++
          [Effect.sendError "Generated query is not a valid SQL command."],
          some envelope_ok⟩ := by
      unfold handle_message
      rw [hd, converse_turn_invalid env hr hv]
    rw [heq]
    rw [errorMsgs_append, errorMsgs_converse, errorMsgs_errorSingleton]
    rfl

/-- C6 witness: a concrete valid turn submits the query. -/
theorem c6_sql_validation_gate_witness :
    (Effect.athenaStart ∈ (handle_message sampleBody envChartTurn).effects ↔
      valid_sql (clean_sql (sqlResp envChartTurn)) = true) ∧
    (valid_sql (clean_sql (sqlResp envChartTurn)) = false →
      errorMsgs (handle_message sampleBody envChartTurn).effects =
        ["Generated query is not a valid SQL command."]) ∧
    (valid_sql (clean_sql "SELECT * FROM sales;") = true ∧
      valid_sql (clean_sql "select 1") = true ∧
      valid_sql (clean_sql "DROP TABLE sales") = false ∧
      valid_sql (clean_sql "WITH x AS (...) SELECT 1") = false) :=
  c6_sql_validation_gate sampleBody envChartTurn "S" rfl (by decide) rfl
    (by decide)

/-- C7: for every non-empty classification response the derived intent is
Chart exactly when the lowered response contains "chart"; Table exactly
when it does not contain "chart" but contains "table" (chart is checked
first, so a response containing both yields Chart); Unknown exactly when it
contains neither. -/
theorem c7_intent_characterization (resp : String) (h : ¬ resp = "") :
    (classify_intent resp = VisualizationIntent.Chart ↔
      py_contains "chart" (py_lower resp) = true) ∧
    (classify_intent resp = VisualizationIntent.Table ↔
      (py_contains "chart" (py_lower resp) = false ∧
        py_contains "table" (py_lower resp) = true)) ∧
    (classify_intent resp = VisualizationIntent.Unknown ↔
      (py_contains "chart" (py_lower resp) = false ∧
        py_contains "table" (py_lower resp) = false)) := by
  unfold classify_intent
  cases hc : py_contains "chart" (py_lower resp) <;>
    cases ht : py_contains "table" (py_lower resp) <;>
      simp [hc, ht]

/-- C7 witness: a response containing both substrings classifies as Chart.
-/
theorem c7_intent_characterization_witness :
    (classify_intent "Either a CHART or a table works" =
        VisualizationIntent.Chart ↔
      py_contains "chart" (py_lower "Either a CHART or a table works") =
        true) ∧
    (classify_intent "Either a CHART or a table works" =
        VisualizationIntent.Table ↔
      (py_contains "chart" (py_lower "Either a CHART or a table works") =
          false ∧
        py_contains "table" (py_lower "Either a CHART or a table works") =
          true)) ∧
    (classify_intent "Either a CHART or a table works" =
        VisualizationIntent.Unknown ↔
      (py_contains "chart" (py_lower "Either a CHART or a table works") =
          false ∧
        py_contains "table" (py_lower "Either a CHART or a table works") =
          false)) :=
  c7_intent_characterization "Either a CHART or a table works" (by decide)

/-- C8: a body without a session id makes the turn fail with the
"Session ID is required" validation error before dispatch; its only effect
is that error send — in particular no model call and no Athena submission
ever happens. -/
theorem c8_missing_session_id (body : Body) (env : Env)
    (h : body.session_id = none) :
    handle_message body env =
      ⟨[Effect.sendError "Session ID is required"], some envelope_ok⟩ ∧
    modelCalls (handle_message body env).effects = 0 ∧
    Effect.athenaStart ∉ (handle_message body env).effects := by
  have hd : dispatch body env = ([], .raised "Session ID is required") := by
    unfold dispatch
    rw [h]
  have hh : handle_message body env =
      ⟨[Effect.sendError "Session ID is required"], some envelope_ok⟩ := by
    unfold handle_message
    rw [hd]
    rfl
  refine ⟨hh, ?_, ?_⟩ <;> rw [hh] <;> decide

/-- C8 witness: a concrete session-less CONVERSE body. -/
theorem c8_missing_session_id_witness :
    handle_message ⟨none, some "CONVERSE", some "hi"⟩ envChartTurn =
      ⟨[Effect.sendError "Session ID is required"], some envelope_ok⟩ ∧
    modelCalls (handle_message ⟨none, some "CONVERSE", some "hi"⟩
      envChartTurn).effects = 0 ∧
    Effect.athenaStart ∉ (handle_message ⟨none, some "CONVERSE", some "hi"⟩
      envChartTurn).effects :=
  c8_missing_session_id ⟨none, some "CONVERSE", some "hi"⟩ envChartTurn rfl

/-- C9: whenever `handle_message` returns, it returns the success envelope
`{statusCode: 200, ok: true}` independent of the internal outcome: a
normally-completed try body returns it, a raised exception is appended to
the effects as a single `send_error` and the envelope is still returned,
and no other envelope is ever produced (the return is absent only when the
polling loop diverges and the call never completes). -/
theorem c9_transport_success_envelope (body : Body) (env : Env) :
    ((dispatch body env).2 = TurnEnd.normal →
      handle_message body env =
        ⟨(dispatch body env).1, some envelope_ok⟩) ∧
    (∀ m, (dispatch body env).2 = TurnEnd.raised m →
      handle_message body env =
        ⟨(dispatch body env).1 ++ [Effect.sendError m], some envelope_ok⟩) ∧
    ((dispatch body env).2 = TurnEnd.diverged →
      (handle_message body env).ret = none) ∧
    (∀ e, (handle_message body env).ret = some e → e = envelope_ok) := by
  unfold handle_message
  rcases hd : dispatch body env with ⟨eff, te⟩
  cases te <;> simp

/-- C9 witness: a concrete erroring turn still returns the envelope with
the error reported on the sender channel. -/
theorem c9_transport_success_envelope_witness :
    handle_message ⟨none, none, none⟩ envEmptySql =
      ⟨(dispatch ⟨none, none, none⟩ envEmptySql).1 ++
        [Effect.sendError "Session ID is required"], some envelope_ok⟩ :=
  (c9_transport_success_envelope ⟨none, none, none⟩ envEmptySql).2.1
    "Session ID is required" rfl

/-- C10: in a CONVERSE turn whose generated SQL passes validation but whose
query execution returns `None` or an empty row list, the classification
model call is still made (two model calls total), after which the turn
raises the `UnboundLocalError` of reading the never-assigned
`query_results_str` (truthy classification response) or
`generative_messages` (empty classification response); the error reaches
the sender and `send_loop` is never reached. -/
theorem c10_no_results_unbound_local (body : Body) (env : Env)
    (sid : String) (r : Option (List Row))
    (hs : body.session_id = some sid) (hsid : ¬ sid = "")
    (hev : body.event_type = some "CONVERSE")
    (hr : ¬ sqlResp env = "")
    (hv : valid_sql (clean_sql (sqlResp env)) = true)
    (hex : (execute_athena_query (clean_sql (sqlResp env)) "bm-db-prototype"
      "bloomfleet-ai-prototype-output" env.athena).2 =
      ExecOutcome.returned r)
    (hre : r = none ∨ r = some []) :
    modelCalls (handle_message body env).effects = 2 ∧
    errorMsgs (handle_message body env).effects =
      [nameErrMsg (if intentResp env = "" then "generative_messages"
        else "query_results_str")] ∧
    (handle_message body env).effects.countP isLoopSend = 0 ∧
    (handle_message body env).ret = some envelope_ok := by
  have hd := dispatch_converse body env sid hs hsid hev
  have hct := converse_turn_noresults env r hr hv hex hre
  have heq : handle_message body env =
      ⟨(converse_make_request_stream env.sqlChunks).1 ++
        (execute_athena_query (clean_sql (sqlResp env)) "bm-db-prototype"
          "bloomfleet-ai-prototype-output" env.athena).1 ++
        (converse_make_request_stream env.intentChunks).1 ++
        [Effect.sendError (nameErrMsg (if intentResp env = ""
          then "generative_messages" else "query_results_str"))],
        some envelope_ok⟩ := by
    unfold handle_message
    rw [hd, hct]
  rw [heq]
  refine ⟨?_, ?_, ?_, rfl⟩
  · simp [modelCalls_append, modelCalls_converse, modelCalls_execute,
      modelCalls_errorSingleton]
  · rw [errorMsgs_append, errorMsgs_append, errorMsgs_append,
      errorMsgs_converse, errorMsgs_converse, errorMsgs_execute,
      errorMsgs_errorSingleton]
    rfl
  · rw [loopSends_append, loopSends_append, loopSends_append,
      loopSends_converse, loopSends_converse, loopSends_execute]
    rfl

/-- C10 witness: a concrete turn whose submission fails (so execution
returns `None`) and whose classification response is empty aborts on the
unassigned `generative_messages`. -/
theorem c10_no_results_unbound_local_witness :
    modelCalls (handle_message sampleBody envNoResults).effects = 2 ∧
    errorMsgs (handle_message sampleBody envNoResults).effects =
      [nameErrMsg (if intentResp envNoResults = "" then "generative_messages"
        else "query_results_str")] ∧
    (handle_message sampleBody envNoResults).effects.countP isLoopSend
      = 0 ∧
    (handle_message sampleBody envNoResults).ret = some envelope_ok :=
  c10_no_results_unbound_local sampleBody envNoResults "S" none rfl
    (by decide) rfl (by decide) (by decide) (by decide) (Or.inl rfl)

end Handler
